import Mathlib

/-!
Verification of the `grbpop` functional-forms library
(`src/grbpop/functional_forms.py`).

The Python file is a flat collection of pure numeric functions computing
astrophysical rate densities.  We embed each function over `ℝ`:
numpy's elementwise `np.where(cond, A, B)` becomes `if cond then A else B`
in the scalar embedding, Python's float `**` becomes `Real.rpow`,
`np.exp` becomes `Real.exp`, optional `None` parameters become `Option ℝ`,
and `raise ValueError(msg)` becomes `Except.error msg`.
One-dimensional numpy arrays are embedded as `List ℝ`, with elementwise
broadcasting of the formulas given by `List.map` (the `_vec` definitions).
-/

namespace GrbPop

noncomputable section

/-- `Schechter_log(logL, logLbreak, slope)`:
`x = 10**(logL - logLbreak)`, returns `x**(1.-slope) * np.exp(-x)`. -/
def Schechter_log (logL logLbreak slope : ℝ) : ℝ :=
  let x : ℝ := (10 : ℝ) ^ (logL - logLbreak)
  x ^ (1 - slope) * Real.exp (-x)

/-- `BPL_lum(logL, logLbreak, slopeL, slopeH)`:
`x = 10**(logL - logLbreak)`,
returns `np.where(x <= 1, x**(1.-slopeL), x**(1.-slopeH))`. -/
def BPL_lum (logL logLbreak slopeL slopeH : ℝ) : ℝ :=
  let x : ℝ := (10 : ℝ) ^ (logL - logLbreak)
  if x ≤ 1 then x ^ (1 - slopeL) else x ^ (1 - slopeH)

/-- `SH03(z, a=2.37, b=1.8, zm=2, nu=0.178, IMF_norm=0.007422)`:
`shape = a*exp(b*(z-zm)) / ((a-b) + b*exp(a*(z-zm)))`, `norm = IMF_norm*nu`,
returns `norm*shape`. -/
def SH03 (z a b zm nu IMF_norm : ℝ) : ℝ :=
  let shape := a * Real.exp (b * (z - zm)) /
    ((a - b) + b * Real.exp (a * (z - zm)))
  let norm := IMF_norm * nu
  norm * shape

/-- `HB06(z, z1=0.97, z2=4.48, a=3.44, b=-0.26, c=-7.8, norm=0.0197,
IMF_norm=0.007422)`: two sequential `np.where` selections,
`shape = np.where(z <= z1, (1+z)**a, (1+z)**b * (1+z1)**(a-b))`, then
`shape = np.where(z >= z2, (1+z)**c * (1+z2)**(b-c) * (1+z1)**(a-b), shape)`;
returns `norm * shape`.  `IMF_norm` is accepted but never used. -/
def HB06 (z z1 z2 a b c norm IMF_norm : ℝ) : ℝ :=
  let shape := if z ≤ z1 then (1 + z) ^ a else (1 + z) ^ b * (1 + z1) ^ (a - b)
  let shape := if z ≥ z2 then
    (1 + z) ^ c * (1 + z2) ^ (b - c) * (1 + z1) ^ (a - b) else shape
  norm * shape

/-- `BExp(z, a=1.1, b=-0.57, zm=1.9, SFR_norm=0.02744, IMF_norm=0.007422,
nGRB0=None)`:
`shape = np.where(z <= zm, exp(a*z), exp(b*z)*exp((a-b)*zm))`;
`norm = IMF_norm*SFR_norm` when `nGRB0 is None`, else `norm = nGRB0`;
returns `norm*shape`. -/
def BExp (z a b zm SFR_norm IMF_norm : ℝ) (nGRB0 : Option ℝ) : ℝ :=
  let shape := if z ≤ zm then Real.exp (a * z)
    else Real.exp (b * z) * Real.exp ((a - b) * zm)
  let norm := match nGRB0 with
    | none => IMF_norm * SFR_norm
    | some n0 => n0
  norm * shape

/-- `Li08(z, a=0.0157, b=0.118, c=3.23, d=4.66, IMF_norm=0.007422)`:
returns `IMF_norm * (a + b*z)/(1 + (z/c)**d)`. -/
def Li08 (z a b c d IMF_norm : ℝ) : ℝ :=
  IMF_norm * (a + b * z) / (1 + (z / c) ^ d)

/-- `sp.special.gammainc(s, x)`: the regularized lower incomplete gamma
function `P(s, x) = γ(s, x) / Γ(s)`, with
`γ(s, x) = ∫ t in 0..x, t^(s-1) * exp(-t)`. -/
def gammainc (s x : ℝ) : ℝ :=
  (∫ t in (0 : ℝ)..x, t ^ (s - 1) * Real.exp (-t)) / Real.Gamma s

/-- `S12(z, Zth=None, n_dens=None)`:
`shape = Li08(z)` (with `Li08`'s own defaults);
if `n_dens is not None`, `shape = shape * (1+z)**n_dens`;
if `Zth is not None`,
`shape = shape * sp.special.gammainc(0.84, Zth**2 * 10**(0.3*z))`;
returns `shape`. -/
def S12 (z : ℝ) (Zth n_dens : Option ℝ) : ℝ :=
  let shape := Li08 z 0.0157 0.118 3.23 4.66 0.007422
  let shape := match n_dens with
    | some n => shape * (1 + z) ^ n
    | none => shape
  let shape := match Zth with
    | some t => shape * gammainc 0.84 (t ^ 2 * (10 : ℝ) ^ (0.3 * z))
    | none => shape
  shape

/-- `BPL_z(z, a=2.07, b=-1.36, zm=3.11, nGRB0=1.3e-9, eta0=1, av_jet_ang=1)`:
`shape = np.where(z <= zm, (1+z)**a, (1+z)**b * (1+zm)**(a-b))`;
`norm = nGRB0/(eta0*av_jet_ang)`; returns `norm*shape`. -/
def BPL_z (z a b zm nGRB0 eta0 av_jet_ang : ℝ) : ℝ :=
  let shape := if z ≤ zm then (1 + z) ^ a else (1 + z) ^ b * (1 + zm) ^ (a - b)
  let norm := nGRB0 / (eta0 * av_jet_ang)
  norm * shape

/-- `MD14(z, a=0.015, b=2.7, c=2.9, d=5.6, IMF_norm=0.007422)`:
`shape = (1+z)**b / (1 + ((1+z)/c)**d)`; `norm = IMF_norm*a`;
returns `norm*shape`. -/
def MD14 (z a b c d IMF_norm : ℝ) : ℝ :=
  let shape := (1 + z) ^ b / (1 + ((1 + z) / c) ^ d)
  let norm := IMF_norm * a
  norm * shape

/-- `Rob15(z, a=0.01376, b=3.26, c=2.59, d=5.68, a_err=0.001, b_err=0.21,
c_err=0.14, d_err=0.19, IMF_norm=0.007422)`:
`shape = (1+z)**b / (1 + ((1+z)/c)**d)`; `norm = IMF_norm*a`;
returns `norm*shape`.  The `_err` parameters never occur in the body. -/
def Rob15 (z a b c d a_err b_err c_err d_err IMF_norm : ℝ) : ℝ :=
  let shape := (1 + z) ^ b / (1 + ((1 + z) / c) ^ d)
  let norm := IMF_norm * a
  norm * shape

/-- The body of `qD06` after the `k_s` selection: the literature arrays
`a_s, b_s, c_s, d_s`, the `SFR not in [1,2,3]` check, the indexed formula
`shape = a_s[SFR-1]*exp(b_s[SFR-1]*z) / (d_s[SFR-1] + exp(c_s[SFR-1]*z))`
and `norm = k_s[SFR-1] * IMF_norm`; returns `norm*shape`. -/
def qD06_rest (z : ℝ) (SFR : ℤ) (IMF_norm : ℝ) (k_s : List ℝ) :
    Except String ℝ :=
  let a_s : List ℝ := [0.320, 0.196, 0.175]
  let b_s : List ℝ := [3.30, 4.0, 3.67]
  let c_s : List ℝ := [3.52, 4.0, 3.48]
  let d_s : List ℝ := [23.6, 14.6, 12.6]
  if SFR ∉ ([1, 2, 3] : List ℤ) then
    Except.error "SFR must be an int equal to 1, 2, or 3."
  else
    let i := (SFR - 1).toNat
    let shape := a_s.getD i 0 * Real.exp (b_s.getD i 0 * z) /
      (d_s.getD i 0 + Real.exp (c_s.getD i 0 * z))
    let norm := k_s.getD i 0 * IMF_norm
    Except.ok (norm * shape)

/-- `qD06(z, SFR, mod='A', IMF_norm=0.0122)`:
`k_s = [2.5e-6, 2e-6, 6.3e-7]` when `mod == 'LN'`,
`k_s = [4e-6, 3.2e-6, 1.2e-6]` when `mod == 'A'`,
else `raise ValueError('mod must be A or LN')`; then the `SFR` check and
the indexed formula (`qD06_rest`). -/
def qD06 (z : ℝ) (SFR : ℤ) (mod : String) (IMF_norm : ℝ) : Except String ℝ :=
  if mod = "LN" then
    qD06_rest z SFR IMF_norm [2.5e-6, 2e-6, 6.3e-7]
  else if mod = "A" then
    qD06_rest z SFR IMF_norm [4e-6, 3.2e-6, 1.2e-6]
  else
    Except.error "mod must be A or LN"

/-- `D06(z, a, b, c, d, IMF_norm=0.0122)`:
`shape = a*exp(b*z)/(d + exp(c*z))`; `norm = IMF_norm`;
returns `norm*shape`. -/
def D06 (z a b c d IMF_norm : ℝ) : ℝ :=
  let shape := a * Real.exp (b * z) / (d + Real.exp (c * z))
  let norm := IMF_norm
  norm * shape

/-! ### Array (1-D numpy) versions

Each Python function is polymorphic over scalars and arrays; the arithmetic
and `np.where` act elementwise on a 1-D array.  The `_vec` definitions give
that array semantics: the scalar formula mapped over a `List ℝ`.  For `qD06`
the `mod`/`SFR` validation involves only scalar arguments and happens once
per call, before any array arithmetic. -/

/-- `Schechter_log` applied to a 1-D array of `logL` values. -/
def Schechter_log_vec (logL : List ℝ) (logLbreak slope : ℝ) : List ℝ :=
  logL.map (fun l => Schechter_log l logLbreak slope)

/-- `BPL_lum` applied to a 1-D array of `logL` values. -/
def BPL_lum_vec (logL : List ℝ) (logLbreak slopeL slopeH : ℝ) : List ℝ :=
  logL.map (fun l => BPL_lum l logLbreak slopeL slopeH)

/-- `SH03` applied to a 1-D array of redshifts. -/
def SH03_vec (z : List ℝ) (a b zm nu IMF_norm : ℝ) : List ℝ :=
  z.map (fun zi => SH03 zi a b zm nu IMF_norm)

/-- `HB06` applied to a 1-D array of redshifts. -/
def HB06_vec (z : List ℝ) (z1 z2 a b c norm IMF_norm : ℝ) : List ℝ :=
  z.map (fun zi => HB06 zi z1 z2 a b c norm IMF_norm)

/-- `BExp` applied to a 1-D array of redshifts. -/
def BExp_vec (z : List ℝ) (a b zm SFR_norm IMF_norm : ℝ) (nGRB0 : Option ℝ) :
    List ℝ :=
  z.map (fun zi => BExp zi a b zm SFR_norm IMF_norm nGRB0)

/-- `S12` applied to a 1-D array of redshifts. -/
def S12_vec (z : List ℝ) (Zth n_dens : Option ℝ) : List ℝ :=
  z.map (fun zi => S12 zi Zth n_dens)

/-- `Li08` applied to a 1-D array of redshifts. -/
def Li08_vec (z : List ℝ) (a b c d IMF_norm : ℝ) : List ℝ :=
  z.map (fun zi => Li08 zi a b c d IMF_norm)

/-- `BPL_z` applied to a 1-D array of redshifts. -/
def BPL_z_vec (z : List ℝ) (a b zm nGRB0 eta0 av_jet_ang : ℝ) : List ℝ :=
  z.map (fun zi => BPL_z zi a b zm nGRB0 eta0 av_jet_ang)

/-- `MD14` applied to a 1-D array of redshifts. -/
def MD14_vec (z : List ℝ) (a b c d IMF_norm : ℝ) : List ℝ :=
  z.map (fun zi => MD14 zi a b c d IMF_norm)

/-- `Rob15` applied to a 1-D array of redshifts. -/
def Rob15_vec (z : List ℝ) (a b c d a_err b_err c_err d_err IMF_norm : ℝ) :
    List ℝ :=
  z.map (fun zi => Rob15 zi a b c d a_err b_err c_err d_err IMF_norm)

/-- The body of `qD06` after the `k_s` selection, applied to a 1-D array of
redshifts: the scalar `SFR` check runs once, then `norm*shape` maps over
the array. -/
def qD06_rest_vec (zs : List ℝ) (SFR : ℤ) (IMF_norm : ℝ) (k_s : List ℝ) :
    Except String (List ℝ) :=
  let a_s : List ℝ := [0.320, 0.196, 0.175]
  let b_s : List ℝ := [3.30, 4.0, 3.67]
  let c_s : List ℝ := [3.52, 4.0, 3.48]
  let d_s : List ℝ := [23.6, 14.6, 12.6]
  if SFR ∉ ([1, 2, 3] : List ℤ) then
    Except.error "SFR must be an int equal to 1, 2, or 3."
  else
    let i := (SFR - 1).toNat
    Except.ok (zs.map (fun z =>
      k_s.getD i 0 * IMF_norm *
        (a_s.getD i 0 * Real.exp (b_s.getD i 0 * z) /
          (d_s.getD i 0 + Real.exp (c_s.getD i 0 * z)))))

/-- `qD06` applied to a 1-D array of redshifts: the scalar validation of
`mod` and `SFR` runs once, then the indexed formula maps over the array. -/
def qD06_vec (z : List ℝ) (SFR : ℤ) (mod : String) (IMF_norm : ℝ) :
    Except String (List ℝ) :=
  if mod = "LN" then
    qD06_rest_vec z SFR IMF_norm [2.5e-6, 2e-6, 6.3e-7]
  else if mod = "A" then
    qD06_rest_vec z SFR IMF_norm [4e-6, 3.2e-6, 1.2e-6]
  else
    Except.error "mod must be A or LN"

/-- `D06` applied to a 1-D array of redshifts. -/
def D06_vec (z : List ℝ) (a b c d IMF_norm : ℝ) : List ℝ :=
  z.map (fun zi => D06 zi a b c d IMF_norm)

end

/-! ### Claims -/

/-- Claim C1, counterexample: `Schechter_log(logLbreak, logLbreak, slope)` is
not `1.0`; at `logL = logLbreak = 0` with `slope = 2` the value is
`1^(-1) * exp(-1) = exp(-1) ≠ 1`. -/
theorem C1_counterexample : Schechter_log 0 0 2 ≠ 1 := by
  have h : Schechter_log 0 0 2 = Real.exp (-1) := by
    simp only [Schechter_log]
    rw [sub_self, Real.rpow_zero, Real.one_rpow, one_mul]
  rw [h, Ne, Real.exp_eq_one_iff]
  norm_num

/-- Claim C1 (amended): `Schechter_log` in general returns
`x^(1-slope) * exp(-x)` with `x = 10^(logL - logLbreak)`; at the break
(`logL = logLbreak`) we have `x = 1` regardless of `slope`, so the value is
`exp(-1)` (not `1.0`: the `exp(-x)` factor contributes `e⁻¹` there). -/
theorem C1_schechter_formula_and_break (logL logLbreak slope : ℝ) :
    Schechter_log logL logLbreak slope =
      ((10 : ℝ) ^ (logL - logLbreak)) ^ (1 - slope) *
        Real.exp (-((10 : ℝ) ^ (logL - logLbreak))) ∧
    Schechter_log logLbreak logLbreak slope = Real.exp (-1) := by
  refine ⟨rfl, ?_⟩
  simp only [Schechter_log]
  rw [sub_self, Real.rpow_zero, Real.one_rpow, one_mul]

/-- Claim C5: `S12(z)` with `Zth = None` and `n_dens = None` is exactly
`Li08(z)` with `Li08`'s own default parameters, both for a scalar `z` and
elementwise for an array of `z` values; neither optional modifier is
applied. -/
theorem C5_S12_defaults_to_Li08 (z : ℝ) (zs : List ℝ) :
    S12 z none none = Li08 z 0.0157 0.118 3.23 4.66 0.007422 ∧
    S12_vec zs none none = Li08_vec zs 0.0157 0.118 3.23 4.66 0.007422 :=
  ⟨rfl, rfl⟩

/-- Claim C6: `Rob15(z, a, b, c, d, a_err, b_err, c_err, d_err, IMF_norm)`
equals `MD14(z, a, b, c, d, IMF_norm)` for identical `a, b, c, d, IMF_norm`,
for every value of the error-magnitude parameters: they are inert. -/
theorem C6_Rob15_equals_MD14 (z a b c d a_err b_err c_err d_err IMF_norm : ℝ) :
    Rob15 z a b c d a_err b_err c_err d_err IMF_norm =
      MD14 z a b c d IMF_norm :=
  rfl

/-- Claim C7: the output of `HB06` does not depend on its `IMF_norm`
parameter: for any two values of `IMF_norm` and identical remaining
arguments the results coincide, and the result is `norm * shape`. -/
theorem C7_HB06_IMF_norm_inert (z z1 z2 a b c norm u v : ℝ) :
    HB06 z z1 z2 a b c norm u = HB06 z z1 z2 a b c norm v :=
  rfl

/-- Claim C4: each piecewise function's branch expressions agree at the
breakpoint.  `BPL_lum` at `logL = logLbreak`: both branches equal `1` for
any `slopeL, slopeH`.  `BExp` at `z = zm`: both branches equal `exp(a*zm)`
for any `a, b`.  `BPL_z` at `z = zm` (default `zm = 3.11`): both branches
equal `(1+zm)^a` for any `a, b`.  `HB06` (default `z1 = 0.97`,
`z2 = 4.48`): the first two segments agree at `z1` and the last two agree
at `z2`, for any `a, b, c`. -/
theorem C4_branch_agreement (logLbreak slopeL slopeH a b c s u zm : ℝ) :
    (BPL_lum logLbreak logLbreak slopeL slopeH = 1 ∧
      ((10 : ℝ) ^ (logLbreak - logLbreak)) ^ (1 - slopeL) = 1 ∧
      ((10 : ℝ) ^ (logLbreak - logLbreak)) ^ (1 - slopeH) = 1) ∧
    (BExp zm a b zm s u none = u * s * Real.exp (a * zm) ∧
      Real.exp (b * zm) * Real.exp ((a - b) * zm) = Real.exp (a * zm)) ∧
    (BPL_z 3.11 a b 3.11 1.3e-9 1 1 =
        1.3e-9 / (1 * 1) * ((1 : ℝ) + 3.11) ^ a ∧
      ((1 : ℝ) + 3.11) ^ b * ((1 : ℝ) + 3.11) ^ (a - b) =
        ((1 : ℝ) + 3.11) ^ a) ∧
    (HB06 0.97 0.97 4.48 a b c 0.0197 u =
        0.0197 * ((1 : ℝ) + 0.97) ^ a ∧
      ((1 : ℝ) + 0.97) ^ a =
        ((1 : ℝ) + 0.97) ^ b * ((1 : ℝ) + 0.97) ^ (a - b) ∧
      HB06 4.48 0.97 4.48 a b c 0.0197 u =
        0.0197 * (((1 : ℝ) + 4.48) ^ c * ((1 : ℝ) + 4.48) ^ (b - c) *
          ((1 : ℝ) + 0.97) ^ (a - b)) ∧
      ((1 : ℝ) + 4.48) ^ b * ((1 : ℝ) + 0.97) ^ (a - b) =
        ((1 : ℝ) + 4.48) ^ c * ((1 : ℝ) + 4.48) ^ (b - c) *
          ((1 : ℝ) + 0.97) ^ (a - b)) := by
  have h10 : (10 : ℝ) ^ (logLbreak - logLbreak) = 1 := by
    rw [sub_self, Real.rpow_zero]
  refine ⟨⟨?_, ?_, ?_⟩, ⟨?_, ?_⟩, ⟨?_, ?_⟩, ⟨?_, ?_, ?_, ?_⟩⟩
  · simp only [BPL_lum]
    rw [h10]
    simp [Real.one_rpow]
  · rw [h10, Real.one_rpow]
  · rw [h10, Real.one_rpow]
  · simp only [BExp]
    simp [le_refl]
  · rw [← Real.exp_add]
    congr 1
    ring
  · simp only [BPL_z]
    simp [le_refl]
  · rw [← Real.rpow_add (by norm_num : (0 : ℝ) < 1 + 3.11)]
    congr 1
    ring
  · simp only [HB06]
    norm_num
  · rw [← Real.rpow_add (by norm_num : (0 : ℝ) < 1 + 0.97)]
    congr 1
    ring
  · simp only [HB06]
    norm_num
  · rw [mul_comm (((1 : ℝ) + 4.48) ^ c) (((1 : ℝ) + 4.48) ^ (b - c)),
      ← Real.rpow_add (by norm_num : (0 : ℝ) < 1 + 4.48)]
    congr 2
    ring

/-- Claim C2: `qD06` signals an invalid-argument error exactly when `mod`
is not in \x7b'A', 'LN'\x7d or `SFR` is not in \x7b1, 2, 3\x7d; in particular
`qD06(z, SFR=4)` (default `mod='A'`) errors, `qD06(z, SFR=1, mod='X')`
errors, and `qD06(z, SFR=1, mod='A')` succeeds.  Every other function of
the library is a total `ℝ`-valued function (no `Except` in its type), so
no other function signals a validation error. -/
theorem C2_qD06_validation (z : ℝ) (SFR : ℤ) (mod : String) (IMF_norm : ℝ) :
    ((∃ e, qD06 z SFR mod IMF_norm = Except.error e) ↔
      (mod ≠ "A" ∧ mod ≠ "LN") ∨ SFR ∉ ([1, 2, 3] : List ℤ)) ∧
    (∃ e, qD06 z 4 "A" IMF_norm = Except.error e) ∧
    (∃ e, qD06 z 1 "X" IMF_norm = Except.error e) ∧
    (∃ v, qD06 z 1 "A" IMF_norm = Except.ok v) := by
  refine ⟨?_, ?_, ?_, ?_⟩
  · by_cases hLN : mod = "LN"
    · subst hLN
      by_cases hS : SFR ∈ ([1, 2, 3] : List ℤ)
      · simp [qD06, qD06_rest, hS]
      · simp [qD06, qD06_rest, hS]
    · by_cases hA : mod = "A"
      · subst hA
        by_cases hS : SFR ∈ ([1, 2, 3] : List ℤ)
        · simp [qD06, qD06_rest, hLN, hS]
        · simp [qD06, qD06_rest, hLN, hS]
      · simp [qD06, hLN, hA]
  · exact ⟨"SFR must be an int equal to 1, 2, or 3.", by
      simp [qD06, qD06_rest]⟩
  · exact ⟨"mod must be A or LN", by simp [qD06]⟩
  · simp [qD06, qD06_rest]

/-- Claim C9: the `mod` check runs before the `SFR` check: whenever `mod`
is invalid (`mod ≠ 'A'` and `mod ≠ 'LN'`), `qD06` signals the `mod`
invalid-argument error, for every `SFR` — valid or not. -/
theorem C9_mod_checked_first (z : ℝ) (SFR : ℤ) (mod : String)
    (IMF_norm : ℝ) (hA : mod ≠ "A") (hLN : mod ≠ "LN") :
    qD06 z SFR mod IMF_norm = Except.error "mod must be A or LN" := by
  simp [qD06, hA, hLN]

/-- Witness for C9 at the concrete input `mod = "X"`, `SFR = 4` (both
arguments invalid): the `mod` error is the one signalled. -/
theorem C9_witness :
    ("X" : String) ≠ "A" ∧ ("X" : String) ≠ "LN" ∧
    qD06 0 4 "X" 0.0122 = Except.error "mod must be A or LN" :=
  ⟨by decide, by decide,
    C9_mod_checked_first 0 4 "X" 0.0122 (by decide) (by decide)⟩

/-- Claim C3: `qD06(z, SFR=1, mod='A')` (with the default
`IMF_norm = 0.0122`) computes exactly
`D06(z, 0.320, 3.30, 3.52, 23.6, IMF_norm = 4e-6*0.0122)`: the preset
`SFR = 1` selects `a = 0.320, b = 3.30, c = 3.52, d = 23.6` and
(under `mod = 'A'`) `k = 4e-6`. -/
theorem C3_qD06_preset_matches_D06 (z : ℝ) :
    qD06 z 1 "A" 0.0122 =
      Except.ok (D06 z 0.320 3.30 3.52 23.6 (4e-6 * 0.0122)) := by
  simp [qD06, qD06_rest, D06]

/-- Claim C8: each of the twelve functions is shape-preserving on a 1-D
array: the output array has the length of the input array (for `qD06`,
whenever it succeeds; on a validation error both sides of the `Except.map`
equation are the same error, and there is no output array).  For a scalar
independent variable the scalar definitions return a scalar (`ℝ`,
respectively `Except String ℝ`) by their types. -/
theorem C8_shape_preserving (logL zs : List ℝ)
    (logLbreak slope slopeL slopeH z1 z2 a b c d zm nu s norm u eta0
      av_jet_ang a_err b_err c_err d_err : ℝ)
    (nGRB0 Zth n_dens : Option ℝ) (SFR : ℤ) (mod : String) :
    (Schechter_log_vec logL logLbreak slope).length = logL.length ∧
    (BPL_lum_vec logL logLbreak slopeL slopeH).length = logL.length ∧
    (SH03_vec zs a b zm nu u).length = zs.length ∧
    (HB06_vec zs z1 z2 a b c norm u).length = zs.length ∧
    (BExp_vec zs a b zm s u nGRB0).length = zs.length ∧
    (S12_vec zs Zth n_dens).length = zs.length ∧
    (Li08_vec zs a b c d u).length = zs.length ∧
    (BPL_z_vec zs a b zm u eta0 av_jet_ang).length = zs.length ∧
    (MD14_vec zs a b c d u).length = zs.length ∧
    (Rob15_vec zs a b c d a_err b_err c_err d_err u).length = zs.length ∧
    (qD06_vec zs SFR mod u).map List.length =
      (qD06_vec zs SFR mod u).map (fun _ => zs.length) ∧
    (D06_vec zs a b c d u).length = zs.length := by
  refine ⟨?_, ?_, ?_, ?_, ?_, ?_, ?_, ?_, ?_, ?_, ?_, ?_⟩
  · simp [Schechter_log_vec]
  · simp [BPL_lum_vec]
  · simp [SH03_vec]
  · simp [HB06_vec]
  · simp [BExp_vec]
  · simp [S12_vec]
  · simp [Li08_vec]
  · simp [BPL_z_vec]
  · simp [MD14_vec]
  · simp [Rob15_vec]
  · by_cases hLN : mod = "LN"
    · by_cases hS : SFR ∈ ([1, 2, 3] : List ℤ) <;>
        simp [qD06_vec, qD06_rest_vec, hLN, hS, Except.map]
    · by_cases hA : mod = "A"
      · by_cases hS : SFR ∈ ([1, 2, 3] : List ℤ) <;>
          simp [qD06_vec, qD06_rest_vec, hLN, hA, hS, Except.map]
      · simp [qD06_vec, hLN, hA, Except.map]
  · simp [D06_vec]

/-- Claim C10: for every `z ≥ 0`, each of `SH03`, `BExp` (with `nGRB0`
unset), `Li08`, `BPL_z`, `MD14` and `Rob15` at its default parameters is
strictly positive: every denominator appearing in these formulas is
strictly positive on `z ≥ 0`, so no division by zero occurs and the rate
density is positive. -/
theorem C10_default_rates_positive (z : ℝ) (hz : 0 ≤ z) :
    0 < SH03 z 2.37 1.8 2 0.178 0.007422 ∧
    0 < BExp z 1.1 (-0.57) 1.9 0.02744 0.007422 none ∧
    0 < Li08 z 0.0157 0.118 3.23 4.66 0.007422 ∧
    0 < BPL_z z 2.07 (-1.36) 3.11 1.3e-9 1 1 ∧
    0 < MD14 z 0.015 2.7 2.9 5.6 0.007422 ∧
    0 < Rob15 z 0.01376 3.26 2.59 5.68 0.001 0.21 0.14 0.19 0.007422 := by
  have h1z : (0 : ℝ) < 1 + z := by linarith
  refine ⟨?_, ?_, ?_, ?_, ?_, ?_⟩
  · simp only [SH03]
    positivity
  · simp only [BExp]
    apply mul_pos (by norm_num)
    split <;> positivity
  · simp only [Li08]
    have hnum : (0 : ℝ) < 0.007422 * (0.0157 + 0.118 * z) := by nlinarith
    have hden : (0 : ℝ) < 1 + (z / 3.23) ^ (4.66 : ℝ) := by
      have h := Real.rpow_nonneg (div_nonneg hz (by norm_num : (0 : ℝ) ≤ 3.23)) (4.66 : ℝ)
      linarith
    exact div_pos hnum hden
  · simp only [BPL_z]
    apply mul_pos (by norm_num)
    split
    · exact Real.rpow_pos_of_pos h1z _
    · exact mul_pos (Real.rpow_pos_of_pos h1z _)
        (Real.rpow_pos_of_pos (by norm_num) _)
  · simp only [MD14]
    apply mul_pos (by norm_num)
    have hden : (0 : ℝ) < 1 + ((1 + z) / 2.9) ^ (5.6 : ℝ) := by
      have h := Real.rpow_nonneg
        (div_nonneg (le_of_lt h1z) (by norm_num : (0 : ℝ) ≤ 2.9)) (5.6 : ℝ)
      linarith
    exact div_pos (Real.rpow_pos_of_pos h1z _) hden
  · simp only [Rob15]
    apply mul_pos (by norm_num)
    have hden : (0 : ℝ) < 1 + ((1 + z) / 2.59) ^ (5.68 : ℝ) := by
      have h := Real.rpow_nonneg
        (div_nonneg (le_of_lt h1z) (by norm_num : (0 : ℝ) ≤ 2.59)) (5.68 : ℝ)
      linarith
    exact div_pos (Real.rpow_pos_of_pos h1z _) hden

/-- Witness for C10 at the concrete input `z = 0`. -/
theorem C10_witness :
    (0 : ℝ) ≤ 0 ∧
    (0 < SH03 (0 : ℝ) 2.37 1.8 2 0.178 0.007422 ∧
      0 < BExp (0 : ℝ) 1.1 (-0.57) 1.9 0.02744 0.007422 none ∧
      0 < Li08 (0 : ℝ) 0.0157 0.118 3.23 4.66 0.007422 ∧
      0 < BPL_z (0 : ℝ) 2.07 (-1.36) 3.11 1.3e-9 1 1 ∧
      0 < MD14 (0 : ℝ) 0.015 2.7 2.9 5.6 0.007422 ∧
      0 < Rob15 (0 : ℝ) 0.01376 3.26 2.59 5.68 0.001 0.21 0.14 0.19
        0.007422) :=
  ⟨le_refl 0, C10_default_rates_positive 0 (le_refl 0)⟩

end GrbPop
